import Mathlib

/-!
Verification of the DLP classification pipeline in `src/DLP-function/main.py`.

The program consists of two cloud-function handlers:

* `create_DLP_job` — triggered by an object-creation event on the staging
  (quarantine) bucket; builds a DLP inspection-job request and submits it.
* `resolve_DLP` — triggered by a pub/sub notification carrying a DLP job
  name; fetches the job, parses the recorded storage URL, and, when the
  job found sensitive data, copies the object into the sensitive bucket
  and deletes it from the staging bucket.

Python strings are embedded as `List Char`, so that the string operations
the code relies on — literal concatenation via format strings and
`str.split(sep, maxsplit)` — can be defined structurally and reasoned
about by induction.  Google Cloud Storage is embedded as an association
list from (bucket, object name) to content; the external calls the
handlers issue are recorded in an effect trace, and fallible steps
return `Except`.
-/

set_option maxRecDepth 10000

namespace DLPFunc

/-- Python strings, embedded as lists of characters. -/
abbrev Str := List Char

/-- Find the first occurrence of character `c` in `s`: returns the part
before it and the part after it, or `none` when `c` does not occur.
This is the single step of Python's `str.split`. -/
def breakOn (c : Char) : Str → Option (Str × Str)
  | [] => none
  | x :: xs =>
    if x = c then some ([], xs)
    else (breakOn c xs).map (fun pq => (x :: pq.1, pq.2))

/-- Python's `s.split(c, m)`: split `s` on character `c` at most `m`
times, producing at most `m + 1` parts.  `resolve_DLP` line 116 uses
`file_path.split("/", 3)`. -/
def pySplitN (c : Char) : Nat → Str → List Str
  | 0, s => [s]
  | m + 1, s =>
    match breakOn c s with
    | none => [s]
    | some (p, q) => p :: pySplitN c m q

/-- Key extraction of lines 113 to 116 of main.py:
`file_path.split("/", 3)[3]`, splitting the recorded URL on the path
separator at most three times and indexing part 3; `none` models the
index error Python raises when fewer than four parts result. -/
def extractFileName (file_path : Str) : Option Str :=
  (pySplitN '/' 3 file_path)[3]?

/-- The storage URL format of lines 69 and 70 of main.py: the literal
scheme `gs://`, then the bucket name, a slash, and the file name. -/
def gsUrl (bucket_name file_name : Str) : Str :=
  "gs://".data ++ bucket_name ++ '/' :: file_name

/-- The fully-qualified pub/sub topic of lines 77 and 78 of main.py:
`projects/`, the project id, `/topics/`, the topic id. -/
def topicPath (project_id topic_id : Str) : Str :=
  "projects/".data ++ project_id ++ "/topics/".data ++ topic_id

instance exceptDecEq {ε α : Type} [DecidableEq ε] [DecidableEq α] :
    DecidableEq (Except ε α) := fun x y =>
  match x, y with
  | .ok a, .ok b =>
      if h : a = b then isTrue (h ▸ rfl)
      else isFalse (fun hc => h (Except.ok.inj hc))
  | .error e, .error f =>
      if h : e = f then isTrue (h ▸ rfl)
      else isFalse (fun hc => h (Except.error.inj hc))
  | .ok _, .error _ => isFalse (fun hc => Except.noConfusion hc)
  | .error _, .ok _ => isFalse (fun hc => Except.noConfusion hc)

/-- Log severity constant from line 23 of main.py. -/
def LOG_SEVERITY_DEFAULT : Str := "DEFAULT".data

/-- Log severity constant from line 24 of main.py. -/
def LOG_SEVERITY_INFO : Str := "INFO".data

/-- Log severity constant from line 25 of main.py. -/
def LOG_SEVERITY_ERROR : Str := "ERROR".data

/-- Log severity constant from line 26 of main.py. -/
def LOG_SEVERITY_WARNING : Str := "WARNING".data

/-- Log severity constant from line 27 of main.py. -/
def LOG_SEVERITY_DEBUG : Str := "DEBUG".data

/-- Process-wide configuration, lines 8 to 15 of main.py.  Each value is
resolved once at process start from an environment variable, with a
literal default when unset; `MAX_FINDINGS` is the fixed constant 0.
The embedding keeps the configuration abstract so that theorems
quantify over deployments; `defaultConfig` holds the literal defaults. -/
structure Config where
  PROJECT_ID : Str
  STAGING_BUCKET : Str
  SENSITIVE_BUCKET : Str
  PUB_SUB_TOPIC : Str
  MIN_LIKELIHOOD : Str
  MAX_FINDINGS : Nat
  INFO_TYPES : List Str
  APP_LOG_NAME : Str
deriving DecidableEq

/-- The literal defaults of lines 8 to 15 of main.py; `INFO_TYPES` is the
default environment string split on commas, exactly as line 14 does. -/
def defaultConfig : Config where
  PROJECT_ID := "banded-operator-370512".data
  STAGING_BUCKET := "quar-1999".data
  SENSITIVE_BUCKET := "sens-1999".data
  PUB_SUB_TOPIC := "dlp-topic".data
  MIN_LIKELIHOOD := "POSSIBLE".data
  MAX_FINDINGS := 0
  INFO_TYPES :=
    "FIRST_NAME,PHONE_NUMBER,EMAIL_ADDRESS,US_SOCIAL_SECURITY_NUMBER".data.splitOn ','
  APP_LOG_NAME := "DLP-classify-gcs-files".data

/-- One record of the info-type list built on line 51 of main.py: the
dictionary with single field `name` wrapping a configured tag string. -/
structure InfoTypeEntry where
  name : Str
deriving DecidableEq

/-- The inspection-job request dictionary built on lines 57 to 81 of
main.py, flattened: `info_types`, `min_likelihood` and
`max_findings_per_request` come from `inspect_config`, `url` from
`storage_config.cloud_storage_options.file_set`, and `pub_sub_topic`
from the single pub/sub entry of `actions`. -/
structure InspectJob where
  info_types : List InfoTypeEntry
  min_likelihood : Str
  max_findings_per_request : Nat
  url : Str
  pub_sub_topic : Str
deriving DecidableEq

/-- The resource parent path of line 54 of main.py: `projects/` followed
by the project id. -/
def parentPath (cfg : Config) : Str :=
  "projects/".data ++ cfg.PROJECT_ID

/-- The request `create_DLP_job` builds for the uploaded file
(lines 51 and 57 to 81 of main.py). -/
def buildInspectJob (cfg : Config) (file_name : Str) : InspectJob where
  info_types := cfg.INFO_TYPES.map (fun info_type => ⟨info_type⟩)
  min_likelihood := cfg.MIN_LIKELIHOOD
  max_findings_per_request := cfg.MAX_FINDINGS
  url := gsUrl cfg.STAGING_BUCKET file_name
  pub_sub_topic := topicPath cfg.PROJECT_ID cfg.PUB_SUB_TOPIC

/-- The storage-location URI template, written out from the spec rather
than from the code, for comparison with the URL the code builds: the
scheme, a colon, two separators, the staging container, a separator,
the object key. -/
def specStorageUri (scheme container key : Str) : Str :=
  scheme ++ ':' :: '/' :: '/' :: (container ++ '/' :: key)

/-- The fully-qualified notification-topic template, written out from
the spec rather than from the code, for comparison with the topic the
code builds: `projects/`, the project identifier, `/topics/`, the topic
identifier. -/
def specTopicName (project topic : Str) : Str :=
  "projects/".data ++ (project ++ ("/topics/".data ++ topic))

/-- The external calls a handler issues, in order: log emissions with
their severity, the DLP job-creation call, the DLP job fetch, bucket
lookups, and the blob copy and delete calls. -/
inductive Effect where
  | logEmit (severity : Str)
  | createJob (parent : Str) (inspect_job : InspectJob)
  | getJob (job_name : Str)
  | getBucket (bucket : Str)
  | copyBlob (src_bucket : Str) (src_name : Str) (dst_bucket : Str) (dst_name : Str)
  | deleteBlob (bucket : Str) (blob_name : Str)
deriving DecidableEq

/-- True for the storage-mutating calls: blob copy and blob delete. -/
def Effect.isStorageMutation : Effect → Bool
  | .copyBlob _ _ _ _ => true
  | .deleteBlob _ _ => true
  | _ => false

/-- True for every storage access: bucket lookup, blob copy, blob delete. -/
def Effect.touchesStorage : Effect → Bool
  | .getBucket _ => true
  | .copyBlob _ _ _ _ => true
  | .deleteBlob _ _ => true
  | _ => false

/-- True for the DLP job-creation call. -/
def Effect.isCreateJob : Effect → Bool
  | .createJob _ _ => true
  | _ => false

/-- True for a log emission. -/
def Effect.isLog : Effect → Bool
  | .logEmit _ => true
  | _ => false

/-- Handler `create_DLP_job`, lines 37 to 88 of main.py.  `data_name` is
the `name` field of the storage event.  The outcome of the external
`dlp.create_dlp_job` call is a parameter: `.ok` when the service accepts
the request, `.error` when the call raises.  The body logs an
informational line, issues the creation call inside a try block, and
either logs the confirmation (line 86) or catches the exception and logs
it at error severity (lines 87 and 88); in both cases the handler itself
returns normally.  The first component is the effect trace, the second
the handler's own outcome. -/
def create_DLP_job (cfg : Config) (data_name : Str)
    (submitResult : Except Str Unit) : List Effect × Except Str Unit :=
  let file_name := data_name
  let inspect_job := buildInspectJob cfg file_name
  match submitResult with
  | .ok _ =>
      ([.logEmit LOG_SEVERITY_INFO, .createJob (parentPath cfg) inspect_job,
        .logEmit LOG_SEVERITY_INFO], .ok ())
  | .error _ =>
      ([.logEmit LOG_SEVERITY_INFO, .createJob (parentPath cfg) inspect_job,
        .logEmit LOG_SEVERITY_ERROR], .ok ())

/-- One entry of `job.inspect_details.result.info_type_stats`
(lines 118 and 123 to 125 of main.py): an occurrence count and the
name of the detected info type. -/
structure InfoTypeStat where
  count : Nat
  info_type_name : Str
deriving DecidableEq

/-- The DLP job record fetched on line 106 of main.py, restricted to the
fields `resolve_DLP` reads: the job name, its state, the storage URL
recorded in the job configuration
(`inspect_details.requested_options.job_config.storage_config.cloud_storage_options.file_set.url`),
and the result's info-type stats. -/
structure DlpJob where
  name : Str
  state : Str
  url : Str
  info_type_stats : List InfoTypeStat
deriving DecidableEq

/-- Cloud Storage contents: an association list from (bucket, object
name) to object content.  An object exists when a pair with its key is
present. -/
abbrev Storage := List ((Str × Str) × Str)

/-- Content of the object `blob_name` in `bucket`, when it exists. -/
def lookupBlob (st : Storage) (bucket blob_name : Str) : Option Str :=
  (st.find? (fun e => decide (e.1 = (bucket, blob_name)))).map (fun e => e.2)

/-- Write `content` under (`bucket`, `blob_name`), replacing any
previous entry for that key. -/
def setBlob (st : Storage) (bucket blob_name content : Str) : Storage :=
  ((bucket, blob_name), content) ::
    st.filter (fun e => decide (e.1 ≠ (bucket, blob_name)))

/-- Remove the entry under (`bucket`, `blob_name`). -/
def removeBlob (st : Storage) (bucket blob_name : Str) : Storage :=
  st.filter (fun e => decide (e.1 ≠ (bucket, blob_name)))

/-- Failures of the external storage client used by `resolve_DLP`. -/
inductive StorageErr where
  | copySourceNotFound
  | deleteNotFound
deriving DecidableEq

/-- Embedding of `Bucket.copy_blob` (line 128 of main.py): reads the
source object and writes its content under the destination key; the
underlying API call fails with a not-found error when the source object
does not exist. -/
def copy_blob (st : Storage) (src_bucket src_name dst_bucket dst_name : Str) :
    Except StorageErr Storage :=
  match lookupBlob st src_bucket src_name with
  | none => .error .copySourceNotFound
  | some content => .ok (setBlob st dst_bucket dst_name content)

/-- Embedding of `Blob.delete` (line 130 of main.py): removes the
object; the underlying API call fails with a not-found error when the
object does not exist, as it does on a second delete of the same
object. -/
def delete_blob (st : Storage) (bucket blob_name : Str) :
    Except StorageErr Storage :=
  match lookupBlob st bucket blob_name with
  | none => .error .deleteNotFound
  | some _ => .ok (removeBlob st bucket blob_name)

/-- Failures `resolve_DLP` can raise; none of them is caught inside the
handler, so each one propagates to the invoking trigger runtime. -/
inductive ResolveErr where
  | jobNotFound
  | indexError
  | storage (e : StorageErr)
deriving DecidableEq

/-- Handler `resolve_DLP`, lines 91 to 131 of main.py.  `job_name` is
the `DlpJobName` attribute of the pub/sub event; `jobs` is the external
DLP service's job table consulted by `dlp.get_dlp_job` (line 106);
`st` is the storage contents when the handler starts.  The body logs the
notification, fetches the job, logs its state, extracts the file name
from the recorded URL, resolves the staging bucket, and, when the
info-type stats are non-empty, logs one warning per stat, logs the move,
copies the blob into the sensitive bucket and deletes it from the
staging bucket.  The first component is the effect trace (each external
call is recorded when it is issued); the second is the final storage on
success, or the first uncaught failure. -/
def resolve_DLP (cfg : Config) (jobs : Str → Option DlpJob) (job_name : Str)
    (st : Storage) : List Effect × Except ResolveErr Storage :=
  let t0 : List Effect := [.logEmit LOG_SEVERITY_INFO, .getJob job_name]
  match jobs job_name with
  | none => (t0, .error .jobNotFound)
  | some job =>
    let t1 := t0 ++ [Effect.logEmit LOG_SEVERITY_INFO]
    let file_path := job.url
    match extractFileName file_path with
    | none => (t1, .error .indexError)
    | some file_name =>
      let info_type_stats := job.info_type_stats
      let t2 := t1 ++ [Effect.getBucket cfg.STAGING_BUCKET]
      if info_type_stats.length > 0 then
        let t3 := t2
          ++ info_type_stats.map (fun _ => Effect.logEmit LOG_SEVERITY_WARNING)
          ++ [Effect.logEmit LOG_SEVERITY_DEBUG,
              Effect.getBucket cfg.SENSITIVE_BUCKET,
              Effect.copyBlob cfg.STAGING_BUCKET file_name
                cfg.SENSITIVE_BUCKET file_name]
        match copy_blob st cfg.STAGING_BUCKET file_name
            cfg.SENSITIVE_BUCKET file_name with
        | .error e => (t3, .error (.storage e))
        | .ok st1 =>
          let t4 := t3 ++ [Effect.deleteBlob cfg.STAGING_BUCKET file_name]
          match delete_blob st1 cfg.STAGING_BUCKET file_name with
          | .error e => (t4, .error (.storage e))
          | .ok st2 => (t4, .ok st2)
      else (t2, .ok st)

/-- Concrete object key used by the witnesses; it contains an embedded
path separator, as in the spec's scenario. -/
def wKey : Str := "reports/q1.csv".data

/-- Concrete object content used by the witnesses. -/
def wContent : Str := "row1".data

/-- Concrete DLP job name used by the witnesses. -/
def wJobName : Str := "projects/banded-operator-370512/dlpJobs/i-123".data

/-- Witness job: completed with one `EMAIL_ADDRESS` finding of count 3,
its URL recorded by `create_DLP_job` under the default configuration. -/
def wJob : DlpJob where
  name := wJobName
  state := "DONE".data
  url := gsUrl defaultConfig.STAGING_BUCKET wKey
  info_type_stats := [{ count := 3, info_type_name := "EMAIL_ADDRESS".data }]

/-- Witness job table holding exactly `wJob`. -/
def wJobs : Str → Option DlpJob :=
  fun n => if n = wJobName then some wJob else none

/-- Witness storage: the uploaded object sits in the staging bucket. -/
def wSt : Storage := [((defaultConfig.STAGING_BUCKET, wKey), wContent)]

/-- Witness storage after a completed relocation: the object sits in the
sensitive bucket only. -/
def wStMoved : Storage := [((defaultConfig.SENSITIVE_BUCKET, wKey), wContent)]

/-- Witness job with an empty results summary. -/
def wJobClean : DlpJob where
  name := wJobName
  state := "DONE".data
  url := gsUrl defaultConfig.STAGING_BUCKET wKey
  info_type_stats := []

/-- Witness job table holding exactly `wJobClean`. -/
def wJobsClean : Str → Option DlpJob :=
  fun n => if n = wJobName then some wJobClean else none

/-- Job whose recorded URL names a bucket that differs from the
configured staging bucket, for probing which container the resolver
acts on. -/
def wJobForeign : DlpJob where
  name := wJobName
  state := "DONE".data
  url := gsUrl "other-bucket".data wKey
  info_type_stats := [{ count := 1, info_type_name := "PHONE_NUMBER".data }]

/-- Job table holding exactly `wJobForeign`. -/
def wJobsForeign : Str → Option DlpJob :=
  fun n => if n = wJobName then some wJobForeign else none

/-- Job whose recorded URL holds only two path separators, so the key
extraction of line 116 is out of range. -/
def wJobBadUrl : DlpJob where
  name := wJobName
  state := "DONE".data
  url := "gs://quar-1999".data
  info_type_stats := [{ count := 2, info_type_name := "FIRST_NAME".data }]

/-- Job table holding exactly `wJobBadUrl`. -/
def wJobsBadUrl : Str → Option DlpJob :=
  fun n => if n = wJobName then some wJobBadUrl else none

theorem breakOn_eq_none_iff {c : Char} {s : Str} :
    breakOn c s = none ↔ c ∉ s := by
  induction s with
  | nil => simp [breakOn]
  | cons x xs ih =>
    by_cases hx : x = c
    · subst hx
      simp [breakOn]
    · cases hbk : breakOn c xs with
      | none =>
        have hnotin : c ∉ xs := ih.mp hbk
        simp only [breakOn, if_neg hx, hbk, Option.map_none', List.mem_cons,
          true_iff]
        rintro (h1 | h2)
        · exact hx h1.symm
        · exact hnotin h2
      | some pq =>
        simp only [breakOn, if_neg hx, hbk, Option.map_some', List.mem_cons,
          not_or]
        constructor
        · intro h
          simp at h
        · rintro ⟨-, hc⟩
          rw [ih.mpr hc] at hbk
          simp at hbk

theorem breakOn_eq_some {c : Char} {s p q : Str}
    (h : breakOn c s = some (p, q)) : s = p ++ c :: q ∧ c ∉ p := by
  induction s generalizing p q with
  | nil => simp [breakOn] at h
  | cons x xs ih =>
    by_cases hx : x = c
    · simp only [breakOn, if_pos hx, Option.some.injEq, Prod.mk.injEq] at h
      obtain ⟨h1, h2⟩ := h
      subst h1
      subst h2
      simp [hx]
    · simp only [breakOn, if_neg hx] at h
      cases hbk : breakOn c xs with
      | none => rw [hbk] at h; simp at h
      | some pq =>
        obtain ⟨p1, q1⟩ := pq
        rw [hbk] at h
        simp only [Option.map_some', Option.some.injEq, Prod.mk.injEq] at h
        obtain ⟨h1, h2⟩ := h
        subst h1
        subst h2
        obtain ⟨hs, hnp⟩ := ih hbk
        refine ⟨by simp [hs], ?_⟩
        simp only [List.mem_cons, not_or]
        exact ⟨fun h => hx h.symm, hnp⟩

theorem breakOn_append {c : Char} {p : Str} (q : Str) (hp : c ∉ p) :
    breakOn c (p ++ c :: q) = some (p, q) := by
  induction p with
  | nil => simp [breakOn]
  | cons x xs ih =>
    simp only [List.mem_cons, not_or] at hp
    have hxc : ¬ x = c := fun h => hp.1 h.symm
    simp [List.cons_append, breakOn, hxc, ih hp.2]

theorem count_of_breakOn {c : Char} {s p q : Str}
    (h : breakOn c s = some (p, q)) : s.count c = q.count c + 1 := by
  obtain ⟨hs, hnp⟩ := breakOn_eq_some h
  subst hs
  rw [List.count_append, List.count_cons_self,
    List.count_eq_zero_of_not_mem hnp]
  omega

theorem count_of_breakOn_none {c : Char} {s : Str}
    (h : breakOn c s = none) : s.count c = 0 :=
  List.count_eq_zero_of_not_mem (breakOn_eq_none_iff.mp h)

/-- The number of parts `split(c, m)` produces is `min m (count of c) + 1`. -/
theorem pySplitN_length (c : Char) (m : Nat) (s : Str) :
    (pySplitN c m s).length = min m (s.count c) + 1 := by
  induction m generalizing s with
  | zero => simp [pySplitN]
  | succ m ih =>
    cases hbk : breakOn c s with
    | none =>
      simp [pySplitN, hbk, count_of_breakOn_none hbk]
    | some pq =>
      have hc := count_of_breakOn (p := pq.1) (q := pq.2) (by rw [hbk])
      simp only [pySplitN, hbk, List.length_cons, ih, hc]
      omega

theorem find?_filter_eq {α : Type} (l : List α) (p q : α → Bool)
    (h : ∀ a, p a = true → q a = true) :
    (l.filter q).find? p = l.find? p := by
  induction l with
  | nil => rfl
  | cons x xs ih =>
    rw [List.filter_cons]
    by_cases hp : p x = true
    · rw [if_pos (h x hp), List.find?_cons_of_pos _ hp,
        List.find?_cons_of_pos _ hp]
    · by_cases hq : q x = true
      · rw [if_pos hq, List.find?_cons_of_neg _ hp,
          List.find?_cons_of_neg _ hp, ih]
      · rw [if_neg hq, List.find?_cons_of_neg _ hp, ih]

theorem find?_filter_none {α : Type} (l : List α) (p q : α → Bool)
    (h : ∀ a, q a = true → p a = false) :
    (l.filter q).find? p = none := by
  induction l with
  | nil => rfl
  | cons x xs ih =>
    rw [List.filter_cons]
    by_cases hq : q x = true
    · rw [if_pos hq, List.find?_cons_of_neg _ (by simp [h x hq])]
      exact ih
    · rw [if_neg hq]
      exact ih

theorem lookupBlob_setBlob_same (st : Storage) (bucket blob_name content : Str) :
    lookupBlob (setBlob st bucket blob_name content) bucket blob_name =
      some content := by
  rw [lookupBlob, setBlob, List.find?_cons_of_pos _ (by simp)]
  rfl

theorem lookupBlob_setBlob_other (st : Storage) {b1 n1 b2 n2 : Str}
    (content : Str) (h : (b2, n2) ≠ (b1, n1)) :
    lookupBlob (setBlob st b1 n1 content) b2 n2 = lookupBlob st b2 n2 := by
  rw [lookupBlob, setBlob, List.find?_cons_of_neg _ (by simp [Ne.symm h])]
  rw [lookupBlob, find?_filter_eq]
  intro a ha
  simp only [decide_eq_true_eq] at ha ⊢
  rw [ha]
  exact h

theorem lookupBlob_removeBlob_same (st : Storage) (bucket blob_name : Str) :
    lookupBlob (removeBlob st bucket blob_name) bucket blob_name = none := by
  rw [lookupBlob, removeBlob, find?_filter_none]
  · rfl
  · intro a ha
    simp only [decide_eq_true_eq] at ha
    simp [ha]

theorem lookupBlob_removeBlob_other (st : Storage) {b1 n1 b2 n2 : Str}
    (h : (b2, n2) ≠ (b1, n1)) :
    lookupBlob (removeBlob st b1 n1) b2 n2 = lookupBlob st b2 n2 := by
  rw [lookupBlob, removeBlob, find?_filter_eq, lookupBlob]
  intro a ha
  simp only [decide_eq_true_eq] at ha ⊢
  rw [ha]
  exact h

theorem pySplitN_succ_some {c : Char} {s p q : Str} (m : Nat)
    (h : breakOn c s = some (p, q)) :
    pySplitN c (m + 1) s = p :: pySplitN c m q := by
  show (match breakOn c s with
    | none => [s]
    | some (p, q) => p :: pySplitN c m q) = p :: pySplitN c m q
  rw [h]

/-- Splitting the stored URL on the path separator at most three times
yields the scheme part, an empty part, the bucket, and the whole file
name, provided the bucket name contains no separator. -/
theorem pySplitN_gsUrl {bucket_name : Str} (file_name : Str)
    (hb : '/' ∉ bucket_name) :
    pySplitN '/' 3 (gsUrl bucket_name file_name) =
      [['g', 's', ':'], [], bucket_name, file_name] := by
  have h0 : gsUrl bucket_name file_name =
      ['g', 's', ':'] ++ '/' :: ('/' :: (bucket_name ++ '/' :: file_name)) := by
    simp [gsUrl]
  have h1 : breakOn '/' (gsUrl bucket_name file_name) =
      some (['g', 's', ':'], '/' :: (bucket_name ++ '/' :: file_name)) := by
    rw [h0]
    exact breakOn_append _ (by decide)
  have h2 : breakOn '/' ('/' :: (bucket_name ++ '/' :: file_name)) =
      some ([], bucket_name ++ '/' :: file_name) := by
    simp [breakOn]
  have h3 : breakOn '/' (bucket_name ++ '/' :: file_name) =
      some (bucket_name, file_name) := breakOn_append _ hb
  show pySplitN '/' (2 + 1) (gsUrl bucket_name file_name) = _
  rw [pySplitN_succ_some 2 h1]
  show _ :: pySplitN '/' (1 + 1) _ = _
  rw [pySplitN_succ_some 1 h2]
  show _ :: _ :: pySplitN '/' (0 + 1) _ = _
  rw [pySplitN_succ_some 0 h3]
  rfl

/-- The key extraction recovers the file name from a well-formed stored
URL, embedded separators in the file name included. -/
theorem extractFileName_gsUrl {bucket_name : Str} (file_name : Str)
    (hb : '/' ∉ bucket_name) :
    extractFileName (gsUrl bucket_name file_name) = some file_name := by
  rw [extractFileName, pySplitN_gsUrl file_name hb]
  rfl

/-- The key extraction fails (an index error in Python) exactly when the
recorded URL holds fewer than three path separators. -/
theorem extractFileName_eq_none_iff (file_path : Str) :
    extractFileName file_path = none ↔ file_path.count '/' < 3 := by
  rw [extractFileName, List.getElem?_eq_none_iff, pySplitN_length]
  omega

/-- C1: for every job record whose results summary (info-type stats) is
non-empty, `resolve_DLP` copies the object into the sensitive-data
bucket under the same key and then deletes it from the staging bucket:
the run succeeds and ends with the object present in the sensitive
bucket under the original key and absent from the staging bucket. -/
theorem resolve_DLP_moves_to_sensitive
    (cfg : Config) (jobs : Str → Option DlpJob) (job_name k content : Str)
    (job : DlpJob) (st : Storage)
    (hjob : jobs job_name = some job)
    (hk : extractFileName job.url = some k)
    (hstats : job.info_type_stats ≠ [])
    (hpresent : lookupBlob st cfg.STAGING_BUCKET k = some content)
    (hdiff : cfg.SENSITIVE_BUCKET ≠ cfg.STAGING_BUCKET) :
    ∃ st2, (resolve_DLP cfg jobs job_name st).2 = .ok st2 ∧
      lookupBlob st2 cfg.SENSITIVE_BUCKET k = some content ∧
      lookupBlob st2 cfg.STAGING_BUCKET k = none := by
  have hlen : job.info_type_stats.length > 0 := List.length_pos.mpr hstats
  have hcopy : copy_blob st cfg.STAGING_BUCKET k cfg.SENSITIVE_BUCKET k =
      .ok (setBlob st cfg.SENSITIVE_BUCKET k content) := by
    rw [copy_blob, hpresent]
  have hpair : (cfg.STAGING_BUCKET, k) ≠ (cfg.SENSITIVE_BUCKET, k) := by
    intro hp
    exact hdiff (congrArg Prod.fst hp).symm
  have hlook1 : lookupBlob (setBlob st cfg.SENSITIVE_BUCKET k content)
      cfg.STAGING_BUCKET k = some content := by
    rw [lookupBlob_setBlob_other st content hpair, hpresent]
  have hdel : delete_blob (setBlob st cfg.SENSITIVE_BUCKET k content)
      cfg.STAGING_BUCKET k =
      .ok (removeBlob (setBlob st cfg.SENSITIVE_BUCKET k content)
        cfg.STAGING_BUCKET k) := by
    rw [delete_blob, hlook1]
  refine ⟨removeBlob (setBlob st cfg.SENSITIVE_BUCKET k content)
    cfg.STAGING_BUCKET k, ?_, ?_, ?_⟩
  · simp only [resolve_DLP, hjob, hk, if_pos hlen, hcopy, hdel]
  · rw [lookupBlob_removeBlob_other _ (Ne.symm hpair)]
    exact lookupBlob_setBlob_same st cfg.SENSITIVE_BUCKET k content
  · exact lookupBlob_removeBlob_same _ cfg.STAGING_BUCKET k

/-- Witness for C1: the spec's scenario under the default configuration,
with the object `reports/q1.csv` in the staging bucket and one
`EMAIL_ADDRESS` finding. -/
theorem resolve_DLP_moves_to_sensitive_witness :
    wJobs wJobName = some wJob ∧
    extractFileName wJob.url = some wKey ∧
    wJob.info_type_stats ≠ [] ∧
    lookupBlob wSt defaultConfig.STAGING_BUCKET wKey = some wContent ∧
    defaultConfig.SENSITIVE_BUCKET ≠ defaultConfig.STAGING_BUCKET ∧
    ∃ st2, (resolve_DLP defaultConfig wJobs wJobName wSt).2 = .ok st2 ∧
      lookupBlob st2 defaultConfig.SENSITIVE_BUCKET wKey = some wContent ∧
      lookupBlob st2 defaultConfig.STAGING_BUCKET wKey = none :=
  ⟨by decide, by decide, by decide, by decide, by decide,
    resolve_DLP_moves_to_sensitive defaultConfig wJobs wJobName wKey wContent
      wJob wSt (by decide) (by decide) (by decide) (by decide) (by decide)⟩

/-- C2, counterexample: the claim says the container the resolver acts
on is recovered from the recorded URI.  It is not: on a completed job
whose recorded URI names `other-bucket`, the resolver still copies from
and deletes in the configured staging bucket `quar-1999`, and never
touches `other-bucket`. -/
theorem resolve_DLP_source_bucket_not_from_url :
    wJobForeign.url = gsUrl "other-bucket".data wKey ∧
    Effect.copyBlob defaultConfig.STAGING_BUCKET wKey
        defaultConfig.SENSITIVE_BUCKET wKey ∈
      (resolve_DLP defaultConfig wJobsForeign wJobName wSt).1 ∧
    Effect.deleteBlob defaultConfig.STAGING_BUCKET wKey ∈
      (resolve_DLP defaultConfig wJobsForeign wJobName wSt).1 ∧
    Effect.copyBlob "other-bucket".data wKey
        defaultConfig.SENSITIVE_BUCKET wKey ∉
      (resolve_DLP defaultConfig wJobsForeign wJobName wSt).1 ∧
    Effect.deleteBlob "other-bucket".data wKey ∉
      (resolve_DLP defaultConfig wJobsForeign wJobName wSt).1 ∧
    defaultConfig.STAGING_BUCKET ≠ "other-bucket".data := by decide

/-- C2 as amended: only the object key the resolver acts on is
recovered from the recorded URI; the source container is always the
configured staging bucket.  When the URI has the shape the Job Submitter
records — the configured staging bucket followed by the key — the
container/name pair used by the copy and the delete coincides with the
pair encoded in the URI: every copy the resolver issues goes from the
staging bucket under the URI's key to the sensitive bucket under the
same key, and every delete targets the staging bucket under that key. -/
theorem resolve_DLP_acts_on_config_bucket_and_url_key
    (cfg : Config) (jobs : Str → Option DlpJob)
    (job_name k : Str) (job : DlpJob) (st : Storage)
    (hjob : jobs job_name = some job)
    (hurl : job.url = gsUrl cfg.STAGING_BUCKET k)
    (hb : '/' ∉ cfg.STAGING_BUCKET)
    (hstats : job.info_type_stats ≠ []) :
    Effect.copyBlob cfg.STAGING_BUCKET k cfg.SENSITIVE_BUCKET k ∈
      (resolve_DLP cfg jobs job_name st).1 ∧
    (∀ b1 n1 b2 n2,
      Effect.copyBlob b1 n1 b2 n2 ∈ (resolve_DLP cfg jobs job_name st).1 →
      b1 = cfg.STAGING_BUCKET ∧ n1 = k ∧ b2 = cfg.SENSITIVE_BUCKET ∧ n2 = k) ∧
    (∀ b1 n1,
      Effect.deleteBlob b1 n1 ∈ (resolve_DLP cfg jobs job_name st).1 →
      b1 = cfg.STAGING_BUCKET ∧ n1 = k) := by
  have hlen : job.info_type_stats.length > 0 := List.length_pos.mpr hstats
  have hk : extractFileName job.url = some k := by
    rw [hurl]
    exact extractFileName_gsUrl k hb
  simp only [resolve_DLP, hjob, hk, if_pos hlen]
  cases hcb : copy_blob st cfg.STAGING_BUCKET k cfg.SENSITIVE_BUCKET k with
  | error e =>
    refine ⟨by simp, ?_, ?_⟩
    · intro b1 n1 b2 n2 hmem
      simp [List.mem_map] at hmem
      simp [hmem]
    · intro b1 n1 hmem
      simp [List.mem_map] at hmem
  | ok st1 =>
    cases hdb : delete_blob st1 cfg.STAGING_BUCKET k with
    | error e =>
      simp only [hdb]
      refine ⟨by simp, ?_, ?_⟩
      · intro b1 n1 b2 n2 hmem
        simp [List.mem_map] at hmem
        simp [hmem]
      · intro b1 n1 hmem
        simp [List.mem_map] at hmem
        simp [hmem]
    | ok st2 =>
      simp only [hdb]
      refine ⟨by simp, ?_, ?_⟩
      · intro b1 n1 b2 n2 hmem
        simp [List.mem_map] at hmem
        simp [hmem]
      · intro b1 n1 hmem
        simp [List.mem_map] at hmem
        simp [hmem]

/-- Witness for the amended C2, at the default configuration and the
spec's scenario key. -/
theorem resolve_DLP_acts_on_config_bucket_and_url_key_witness :
    Effect.copyBlob defaultConfig.STAGING_BUCKET wKey
        defaultConfig.SENSITIVE_BUCKET wKey ∈
      (resolve_DLP defaultConfig wJobs wJobName wSt).1 ∧
    (∀ b1 n1 b2 n2,
      Effect.copyBlob b1 n1 b2 n2 ∈
        (resolve_DLP defaultConfig wJobs wJobName wSt).1 →
      b1 = defaultConfig.STAGING_BUCKET ∧ n1 = wKey ∧
        b2 = defaultConfig.SENSITIVE_BUCKET ∧ n2 = wKey) ∧
    (∀ b1 n1,
      Effect.deleteBlob b1 n1 ∈
        (resolve_DLP defaultConfig wJobs wJobName wSt).1 →
      b1 = defaultConfig.STAGING_BUCKET ∧ n1 = wKey) :=
  resolve_DLP_acts_on_config_bucket_and_url_key defaultConfig wJobs wJobName
    wKey wJob wSt (by decide) (by decide) (by decide) (by decide)

/-- C3: for every job record whose results summary is empty,
`resolve_DLP` issues no blob copy and no blob delete, and the run ends
successfully with the storage contents unchanged — the object remains in
the staging bucket. -/
theorem resolve_DLP_empty_stats_no_mutation
    (cfg : Config) (jobs : Str → Option DlpJob) (job_name k : Str)
    (job : DlpJob) (st : Storage)
    (hjob : jobs job_name = some job)
    (hk : extractFileName job.url = some k)
    (hstats : job.info_type_stats = []) :
    ((resolve_DLP cfg jobs job_name st).1.countP Effect.isStorageMutation = 0)
    ∧ (resolve_DLP cfg jobs job_name st).2 = .ok st := by
  simp [resolve_DLP, hjob, hk, hstats, List.countP_cons,
    Effect.isStorageMutation]

/-- Witness for C3: a completed job with zero findings under the default
configuration leaves the staging object untouched. -/
theorem resolve_DLP_empty_stats_no_mutation_witness :
    ((resolve_DLP defaultConfig wJobsClean wJobName wSt).1.countP
      Effect.isStorageMutation = 0)
    ∧ (resolve_DLP defaultConfig wJobsClean wJobName wSt).2 = .ok wSt :=
  resolve_DLP_empty_stats_no_mutation defaultConfig wJobsClean wJobName wKey
    wJobClean wSt (by decide) (by decide) (by decide)

/-- C4: URI-parsing round-trip.  For every object key, embedded path
separators included, the Job Submitter stores the URI built from the
staging bucket and the key, and splitting that URI on the path separator
into at most 4 parts and taking everything after the third separator
returns the original key exactly, with no truncation at the first
separator — provided the bucket name itself contains no separator. -/
theorem buildInspectJob_url_roundtrip (cfg : Config) (file_name : Str)
    (hb : '/' ∉ cfg.STAGING_BUCKET) :
    extractFileName (buildInspectJob cfg file_name).url = some file_name := by
  show extractFileName (gsUrl cfg.STAGING_BUCKET file_name) = some file_name
  exact extractFileName_gsUrl file_name hb

/-- Witness for C4: the key `folder/file.csv` with an embedded separator
round-trips through the default staging bucket's URI. -/
theorem buildInspectJob_url_roundtrip_witness :
    '/' ∉ defaultConfig.STAGING_BUCKET ∧
    extractFileName (buildInspectJob defaultConfig "folder/file.csv".data).url =
      some "folder/file.csv".data :=
  ⟨by decide,
    buildInspectJob_url_roundtrip defaultConfig "folder/file.csv".data
      (by decide)⟩

/-- C5: for every failure of the job-submission call, `create_DLP_job`
catches the exception, logs it at error severity, and completes
normally: its own outcome is success whatever the call returned, it
issues the submission exactly once (no retry), and a failed submission
leaves an error-severity log in the trace. -/
theorem create_DLP_job_swallows_submit_failure (cfg : Config)
    (data_name : Str) (submitResult : Except Str Unit) :
    (create_DLP_job cfg data_name submitResult).2 = .ok () ∧
    (create_DLP_job cfg data_name submitResult).1.countP
      Effect.isCreateJob = 1 ∧
    (∀ msg, submitResult = .error msg →
      Effect.logEmit LOG_SEVERITY_ERROR ∈
        (create_DLP_job cfg data_name submitResult).1) := by
  cases submitResult <;>
    simp [create_DLP_job, List.countP_cons, Effect.isCreateJob]

/-- Witness for C5: a concrete failing submission is swallowed and
logged at error severity. -/
theorem create_DLP_job_swallows_submit_failure_witness :
    (create_DLP_job defaultConfig wKey (.error "boom".data)).2 = .ok () ∧
    Effect.logEmit LOG_SEVERITY_ERROR ∈
      (create_DLP_job defaultConfig wKey (.error "boom".data)).1 :=
  ⟨(create_DLP_job_swallows_submit_failure defaultConfig wKey
      (.error "boom".data)).1,
   (create_DLP_job_swallows_submit_failure defaultConfig wKey
      (.error "boom".data)).2.2 "boom".data rfl⟩

/-- C6, counterexample: the claim says redelivery after a completed
relocation fails with a delete-of-missing-object error from the delete
step.  It does not: after the first run has moved the object, the second
run of `resolve_DLP` on the same notification fails at the copy step
with a missing-source error — the delete call is never issued, so the
failure is not a delete-of-missing-object error. -/
theorem resolve_DLP_redelivery_fails_at_copy :
    (resolve_DLP defaultConfig wJobs wJobName wSt).2 = .ok wStMoved ∧
    (resolve_DLP defaultConfig wJobs wJobName wStMoved).2 =
      .error (.storage .copySourceNotFound) ∧
    (resolve_DLP defaultConfig wJobs wJobName wStMoved).2 ≠
      .error (.storage .deleteNotFound) ∧
    Effect.deleteBlob defaultConfig.STAGING_BUCKET wKey ∉
      (resolve_DLP defaultConfig wJobs wJobName wStMoved).1 :=
  ⟨by decide, by decide, by decide, by decide⟩

/-- C6 as amended: redelivering the same notification event after a
completed relocation (the object absent from the staging bucket)
produces a failure of a known kind — a missing-source error raised at
the copy step, the first storage access to the already-relocated object
— rather than a silent duplicate success; no delete call is issued.
`resolve_DLP` contains no error handling for the job fetch, the bucket
lookups, or the copy and delete calls, so the error is the handler's own
outcome, propagating to the invoking trigger runtime. -/
theorem resolve_DLP_redelivery_error_propagates
    (cfg : Config) (jobs : Str → Option DlpJob)
    (job_name k : Str) (job : DlpJob) (st : Storage)
    (hjob : jobs job_name = some job)
    (hk : extractFileName job.url = some k)
    (hstats : job.info_type_stats ≠ [])
    (habsent : lookupBlob st cfg.STAGING_BUCKET k = none) :
    (resolve_DLP cfg jobs job_name st).2 =
      .error (.storage .copySourceNotFound) ∧
    (∀ b1 n1, Effect.deleteBlob b1 n1 ∉
      (resolve_DLP cfg jobs job_name st).1) := by
  have hlen : job.info_type_stats.length > 0 := List.length_pos.mpr hstats
  have hcb : copy_blob st cfg.STAGING_BUCKET k cfg.SENSITIVE_BUCKET k =
      .error .copySourceNotFound := by
    rw [copy_blob, habsent]
  refine ⟨?_, ?_⟩
  · simp only [resolve_DLP, hjob, hk, if_pos hlen, hcb]
  · intro b1 n1 hmem
    simp only [resolve_DLP, hjob, hk, if_pos hlen, hcb] at hmem
    simp at hmem

/-- Witness for the amended C6: redelivery of the witness notification
after the witness relocation. -/
theorem resolve_DLP_redelivery_error_propagates_witness :
    (resolve_DLP defaultConfig wJobs wJobName wStMoved).2 =
      .error (.storage .copySourceNotFound) ∧
    (∀ b1 n1, Effect.deleteBlob b1 n1 ∉
      (resolve_DLP defaultConfig wJobs wJobName wStMoved).1) :=
  resolve_DLP_redelivery_error_propagates defaultConfig wJobs wJobName wKey
    wJob wStMoved (by decide) (by decide) (by decide) (by decide)

/-- C7: for every object-creation event with key `data_name`, the
request `create_DLP_job` submits records the storage-location URI
`gs://`, the configured staging bucket, a separator, and the key —
exactly the template the spec states. -/
theorem create_DLP_job_url_matches_spec (cfg : Config) (data_name : Str)
    (submitResult : Except Str Unit) :
    Effect.createJob (parentPath cfg) (buildInspectJob cfg data_name) ∈
      (create_DLP_job cfg data_name submitResult).1 ∧
    (buildInspectJob cfg data_name).url =
      specStorageUri "gs".data cfg.STAGING_BUCKET data_name := by
  cases submitResult <;>
    exact ⟨by simp [create_DLP_job], rfl⟩

/-- C8: for every submitted inspection job, the request's notification
action names the fully-qualified topic built from the configured project
identifier and notification-topic identifier, exactly the template the
spec states. -/
theorem create_DLP_job_topic_matches_spec (cfg : Config) (data_name : Str)
    (submitResult : Except Str Unit) :
    Effect.createJob (parentPath cfg) (buildInspectJob cfg data_name) ∈
      (create_DLP_job cfg data_name submitResult).1 ∧
    (buildInspectJob cfg data_name).pub_sub_topic =
      specTopicName cfg.PROJECT_ID cfg.PUB_SUB_TOPIC := by
  cases submitResult <;>
    refine ⟨by simp [create_DLP_job], ?_⟩ <;>
    simp [buildInspectJob, topicPath, specTopicName]

/-- C9: for every object-creation event, `create_DLP_job` performs no
storage mutation and indeed no storage access at all: its trace holds no
blob copy and no blob delete, and every effect it emits is either a log
emission or the single job-creation call. -/
theorem create_DLP_job_no_storage_mutation (cfg : Config) (data_name : Str)
    (submitResult : Except Str Unit) :
    (create_DLP_job cfg data_name submitResult).1.countP
      Effect.isStorageMutation = 0 ∧
    (create_DLP_job cfg data_name submitResult).1.countP
      Effect.touchesStorage = 0 ∧
    ((create_DLP_job cfg data_name submitResult).1.all
      (fun e => Effect.isLog e || Effect.isCreateJob e)) = true ∧
    (create_DLP_job cfg data_name submitResult).1.countP
      Effect.isCreateJob = 1 := by
  cases submitResult <;>
    simp [create_DLP_job, List.countP_cons, Effect.isStorageMutation,
      Effect.touchesStorage, Effect.isLog, Effect.isCreateJob]

/-- C10: the key extraction of `resolve_DLP` is total exactly on URIs
holding at least three path separators.  On any recorded URI with fewer
than three separators the extraction is out of range, and the run fails
with the index error before any storage access — its trace contains no
bucket lookup, no copy, no delete.  On every URI of the well-formed
shape the Job Submitter records — bucket without separators, then the
key — the extraction succeeds and returns the key. -/
theorem extractFileName_totality
    (cfg : Config) (jobs : Str → Option DlpJob)
    (job_name : Str) (job : DlpJob) (st : Storage) (bucket_name key : Str)
    (hjob : jobs job_name = some job)
    (hlow : job.url.count '/' < 3)
    (hb : '/' ∉ bucket_name) :
    extractFileName job.url = none ∧
    (resolve_DLP cfg jobs job_name st).2 = .error .indexError ∧
    (resolve_DLP cfg jobs job_name st).1.countP Effect.touchesStorage = 0 ∧
    extractFileName (gsUrl bucket_name key) = some key := by
  have hnone := (extractFileName_eq_none_iff job.url).mpr hlow
  refine ⟨hnone, ?_, ?_, extractFileName_gsUrl key hb⟩
  · simp only [resolve_DLP, hjob, hnone]
  · simp [resolve_DLP, hjob, hnone, List.countP_cons, Effect.touchesStorage]

/-- Witness for C10: a recorded URI with two separators makes the run
fail with the index error and no storage access, while the well-formed
URI over the default staging bucket and a nested key parses back to the
key. -/
theorem extractFileName_totality_witness :
    extractFileName wJobBadUrl.url = none ∧
    (resolve_DLP defaultConfig wJobsBadUrl wJobName wSt).2 =
      .error .indexError ∧
    (resolve_DLP defaultConfig wJobsBadUrl wJobName wSt).1.countP
      Effect.touchesStorage = 0 ∧
    extractFileName (gsUrl "quar-1999".data "folder/file.csv".data) =
      some "folder/file.csv".data :=
  extractFileName_totality defaultConfig wJobsBadUrl wJobName wJobBadUrl wSt
    "quar-1999".data "folder/file.csv".data (by decide) (by decide) (by decide)

end DLPFunc
